import Mathlib

/-!
# Navigation Tree Resolver: verification of the spec against `vocs.config.tsx`

The repository is a Vocs documentation site.  Its only structured datum is the
static navigation configuration in `src/vocs.config.tsx` (`sidebar`, `topNav`):
ordered entries carrying a `text` label, an optional `link`, an optional
`collapsed` flag and an optional `items` list of children.  The resolver
operations (`buildTree`, `validateLinks`, `flatten`) are described by the spec
only; they are modelled here from the spec's words, while the configuration
data itself is transcribed from the source file.
-/

namespace Nav

/-- A JSON-ish scalar value, so that a malformed configuration (for instance a
non-string `link`) is representable at the raw level. -/
inductive JVal where
  | str (s : String)
  | num (n : Int)
deriving DecidableEq

/-- A raw navigation entry exactly as written in `vocs.config.tsx`: a `text`
label, an optional `link` value, an optional `collapsed` boolean and an
optional list of child `items` (an entry may carry an explicitly empty
`items: []`, or omit the field altogether). -/
inductive RawEntry where
  | mk (text : String) (link : Option JVal) (collapsed : Option Bool)
       (items : Option (List RawEntry))

/-- Modelled from the spec: the resolved navigation node produced by
`buildTree` — link known to be a string, collapsed state resolved to a
boolean (absent defaults to `false`, i.e. expanded). -/
inductive NavNode where
  | mk (text : String) (link : Option String) (collapsed : Bool)
       (items : Option (List NavNode))

def NavNode.text : NavNode → String
  | .mk t _ _ _ => t

def NavNode.link : NavNode → Option String
  | .mk _ l _ _ => l

def NavNode.collapsed : NavNode → Bool
  | .mk _ _ c _ => c

def NavNode.items : NavNode → Option (List NavNode)
  | .mk _ _ _ i => i

def RawEntry.text : RawEntry → String
  | .mk t _ _ _ => t

def RawEntry.link : RawEntry → Option JVal
  | .mk _ l _ _ => l

def RawEntry.collapsed : RawEntry → Option Bool
  | .mk _ _ c _ => c

def RawEntry.items : RawEntry → Option (List RawEntry)
  | .mk _ _ _ i => i

/-- Modelled from the spec: the fatal `ConfigurationError` kind — a malformed
nav entry (wrong shape/type), e.g. a non-string `link`. -/
inductive ConfigurationError where
  | nonStringLink (text : String)
deriving DecidableEq

/-- Modelled from the spec: a `MissingLinkError` names the offending path and
the entry's display text. -/
structure MissingLinkError where
  path : String
  text : String
deriving DecidableEq

mutual

/-- Modelled from the spec: `buildTree` on a single entry.  A non-string
`link` is a fatal `ConfigurationError` (fail fast, no tree produced); an
absent `collapsed` resolves to `false` (expanded by default); order and
nesting of `items` are mirrored unchanged. -/
def buildEntry : RawEntry → Except ConfigurationError NavNode
  | .mk t link c items =>
    match link with
    | some (.num _) => .error (.nonStringLink t)
    | some (.str s) => (buildOptItems items).map (fun its => .mk t (some s) (c.getD false) its)
    | none => (buildOptItems items).map (fun its => .mk t none (c.getD false) its)

/-- Modelled from the spec: `buildTree` on a sibling list, preserving order;
the first `ConfigurationError` aborts the whole build. -/
def buildList : List RawEntry → Except ConfigurationError (List NavNode)
  | [] => .ok []
  | e :: es =>
    match buildEntry e with
    | .error err => .error err
    | .ok n =>
      match buildList es with
      | .error err => .error err
      | .ok ns => .ok (n :: ns)

/-- Modelled from the spec: `buildTree` on an optional `items` field. -/
def buildOptItems : Option (List RawEntry) → Except ConfigurationError (Option (List NavNode))
  | none => .ok none
  | some es => (buildList es).map (fun ns => some ns)

end

/-- Modelled from the spec: `buildTree(config)` — validate and materialize the
root ordered sequence of entries into an immutable tree mirroring input order
and nesting, or fail fast with a `ConfigurationError`. -/
def buildTree (config : List RawEntry) : Except ConfigurationError (List NavNode) :=
  buildList config

mutual

/-- Modelled from the spec: `flatten` on one node at depth `d` — a
depth-first, order-preserving traversal emitting one `(path, depth,
collapsed)` triple per entry that carries a `link`, then its children at
depth `d + 1`. -/
def flattenNode (d : Nat) : NavNode → List (String × Nat × Bool)
  | .mk _ link c items =>
    (match link with
      | some l => [(l, d, c)]
      | none => []) ++
    (match items with
      | some its => flattenList (d + 1) its
      | none => [])

/-- Modelled from the spec: `flatten` on a sibling list at depth `d`. -/
def flattenList (d : Nat) : List NavNode → List (String × Nat × Bool)
  | [] => []
  | n :: ns => flattenNode d n ++ flattenList d ns

end

/-- Modelled from the spec: `flatten(tree)` — depth-first linearization of the
whole tree, roots at depth 0. -/
def flatten (tree : List NavNode) : List (String × Nat × Bool) :=
  flattenList 0 tree

mutual

/-- Modelled from the spec: `validateLinks` on one node — for an entry
carrying a `link`, check membership in the available document paths and
record one `MissingLinkError` (naming path and display text) when absent;
then keep traversing the children.  Errors are accumulated, never
fail-fast. -/
def validateNode (docs : List String) : NavNode → List MissingLinkError
  | .mk t link _ items =>
    (match link with
      | some l => if l ∈ docs then [] else [⟨l, t⟩]
      | none => []) ++
    (match items with
      | some its => validateList docs its
      | none => [])

/-- Modelled from the spec: `validateLinks` on a sibling list. -/
def validateList (docs : List String) : List NavNode → List MissingLinkError
  | [] => []
  | n :: ns => validateNode docs n ++ validateList docs ns

end

/-- Modelled from the spec: `validateLinks(tree, availableDocumentPaths)` —
the list of `MissingLinkError`s collected over the whole tree in one pass. -/
def validateLinks (tree : List NavNode) (docs : List String) : List MissingLinkError :=
  validateList docs tree

/-- The `topNav` array of `vocs.config.tsx`, transcribed entry for entry:
a single entry with a `text` and a `link` and no `collapsed` or `items`
field. -/
def topNav : List RawEntry :=
  [.mk "🔔 Read the latest docs" (some (.str "https://docs.xmtp.org/")) none none]

/-- The `sidebar` array of `vocs.config.tsx`, transcribed entry for entry in
declared order: each `.mk` gives the entry's `text`, its `link` (`none` when
the field is absent), its `collapsed` flag (`none` when absent) and its
`items` (`none` when the field is absent, `some []` for an explicitly empty
`items: []`). -/
def sidebar : List RawEntry :=
  [ .mk "🔔 Read the latest docs ↗" (some (.str "https://docs.xmtp.org/")) none (some []),
    .mk "⎯ LEGACY DOCUMENTATION ⎯" none none (some []),
    .mk "Overview" none (some true) (some
      [ .mk "Intro to XMTP" (some (.str "/get-started/intro")) none none,
        .mk "FAQ" (some (.str "/get-started/faq")) none none ]),
    .mk "Embed a chat widget" (some (.str "/chat-widget/chat-widget")) none (some []),
    .mk "Broadcast notifications" none (some true) (some
      [ .mk "Use case" (some (.str "/consent/build-engagement")) none none,
        .mk "Enable subscriptions" (some (.str "/consent/subscribe")) none none,
        .mk "Broadcast notifications" (some (.str "/consent/broadcast")) none none,
        .mk "Quickstart repos" (some (.str "/consent/consent-quickstarts")) none none ]),
    .mk "Build chat inboxes" none (some true) (some
      [ .mk "Get started" none (some false) (some
          [ .mk "Developer quickstart" (some (.str "/get-started/developer-quickstart")) none none,
            .mk "SDKs and example apps" (some (.str "/get-started/examples")) none none,
            .mk "SDK references" (some (.str "/get-started/references")) none none ]),
        .mk "Create a client" (some (.str "/client/create-client")) none none,
        .mk "Build 1:1 chat" none (some true) (some
          [ .mk "Create a 1:1 conversation" (some (.str "/dms/conversations")) none none,
            .mk "Send 1:1 messages" (some (.str "/dms/messages")) none none,
            .mk "Stream 1:1 conversations & messages" (some (.str "/dms/streams")) none none ]),
        .mk "Build group chat" none (some true) (some
          [ .mk "Build group chat" (some (.str "/groups/build-group-chat")) none none,
            .mk "Handle group consent" (some (.str "/groups/group-consent")) none none,
            .mk "Handle group permissions" (some (.str "/groups/group-permissions")) none none,
            .mk "Handle group metadata" (some (.str "/groups/group-metadata")) none none ]),
        .mk "Build push notifications" none (some true) (some
          [ .mk "Send push notifications" (some (.str "/notifications/build-notifications")) none none,
            .mk "Set up a push notification server" (some (.str "/notifications/notif-server")) none none,
            .mk "Best practices" (some (.str "/notifications/notif-best-practices")) none none,
            .mk "Try Android example notifications" (some (.str "/notifications/notifs-android")) none none,
            .mk "Try iOS example notifications" (some (.str "/notifications/notifs-ios")) none none ]),
        .mk "Support spam-free inboxes" none (some true) (some
          [ .mk "User consent and spam-free inboxes" (some (.str "/consent/user-consent")) none none,
            .mk "Build with consent methods" (some (.str "/consent/consent-methods")) none none,
            .mk "Handle unknown contacts" (some (.str "/consent/filter-spam")) none none ]),
        .mk "Support content types" none (some true) (some
          [ .mk "Understand content types" (some (.str "/content-types/content-types")) none none,
            .mk "Remote attachment" (some (.str "/content-types/remote-attachment")) none none,
            .mk "Replies" (some (.str "/content-types/reply")) none none,
            .mk "Reactions" (some (.str "/content-types/reaction")) none none,
            .mk "Read receipts" (some (.str "/content-types/read-receipt")) none none,
            .mk "Onchain transaction references" (some (.str "/content-types/transaction-ref")) none none,
            .mk "Custom content type" (some (.str "/content-types/custom")) none none ]),
        .mk "Display Open Frames" none (some true) (some
          [ .mk "Get started with Open Frames" (some (.str "/open-frames/open-frames")) none none,
            .mk "Display transactional Open Frames" (some (.str "/open-frames/transactional-open-frames")) none none,
            .mk "Display subscription Open Frames" (some (.str "/open-frames/subscription-open-frames")) none none ]),
        .mk "Performance & UX" none (some true) (some
          [ .mk "Use local-first architecture" (some (.str "/perf-ux/local-first")) none none,
            .mk "Use optimistic sending" (some (.str "/perf-ux/optimistic-sending")) none none,
            .mk "Resolve identities" (some (.str "/perf-ux/identity-resolution")) none none,
            .mk "Performance test" (some (.str "/perf-ux/debug-and-test")) none none,
            .mk "Launch checklist" (some (.str "/perf-ux/get-featured")) none none,
            .mk "MetaMask Snap" (some (.str "/perf-ux/xmtp-metamask-snap")) none none ]),
        .mk "Troubleshoot" (some (.str "/dms/troubleshoot")) none none ]),
    .mk "Learn protocol concepts" none (some true) (some
      [ .mk "Account signatures" (some (.str "/protocol/signatures")) none none,
        .mk "Security and encryption" (some (.str "/protocol/security-encryption")) none none,
        .mk "Protocols" (some (.str "/protocol/protocols")) none none,
        .mk "Multi-wallet identity" (some (.str "/protocol/v3/identity")) none none,
        .mk "Message history" (some (.str "/protocol/v3/message-history")) none none,
        .mk "Smart wallet support" (some (.str "/protocol/v3/smart-wallet")) none none,
        .mk "Portable inbox" (some (.str "/protocol/portable-inbox")) none none,
        .mk "XIPs" (some (.str "/protocol/xips")) none none,
        .mk "XMTP versions" (some (.str "/protocol/xmtp-versions")) none none,
        .mk "XMTP V2" none (some true) (some
          [ .mk "Architecture" (some (.str "/protocol/v2/architectural-overview")) none none,
            .mk "Key generation" (some (.str "/protocol/v2/key-generation-and-usage")) none none,
            .mk "Encryption" (some (.str "/protocol/v2/invitation-and-message-encryption")) none none,
            .mk "Algorithms in use" (some (.str "/protocol/v2/algorithms-in-use")) none none ]) ]) ]

/-- The content documents present under `src/docs/pages`, identified by their
site paths (`docs/pages/content-types/attachment.mdx` and
`docs/pages/dms/streams.mdx`). -/
def availableDocPaths : List String :=
  ["/content-types/attachment", "/dms/streams"]

mutual

/-- The declared linearization of a raw entry: its own string `link` (if any)
at its declared depth with its declared collapse default, followed by the
children in declared sibling order at depth `d + 1`.  This is the spec's
reading of the input configuration, written independently of `buildTree` and
`flatten`, to compare the two. -/
def rawFlattenEntry (d : Nat) : RawEntry → List (String × Nat × Bool)
  | .mk _ link c items =>
    (match link with
      | some (.str l) => [(l, d, c.getD false)]
      | _ => []) ++
    (match items with
      | some its => rawFlattenItems (d + 1) its
      | none => [])

/-- The declared linearization of a raw sibling list, in declared order. -/
def rawFlattenItems (d : Nat) : List RawEntry → List (String × Nat × Bool)
  | [] => []
  | e :: es => rawFlattenEntry d e ++ rawFlattenItems d es

end

mutual

/-- The `(link, display text)` pairs of a resolved node and its descendants,
in depth-first declared order — the entries `validateLinks` must inspect. -/
def linkedNode : NavNode → List (String × String)
  | .mk t link _ items =>
    (match link with
      | some l => [(l, t)]
      | none => []) ++
    (match items with
      | some its => linkedList its
      | none => [])

/-- The `(link, display text)` pairs of a resolved sibling list. -/
def linkedList : List NavNode → List (String × String)
  | [] => []
  | n :: ns => linkedNode n ++ linkedList ns

end

/-- The verdict `validateLinks` owes one `(link, text)` pair: no error when
the link is a member of the document set, one `MissingLinkError` naming the
offending path and the entry's display text otherwise. -/
def missingCheck (docs : List String) (p : String × String) : Option MissingLinkError :=
  if p.1 ∈ docs then none else some ⟨p.1, p.2⟩

mutual

/-- All string `link` values of a raw entry and its descendants, in
depth-first declared order. -/
def linkStringsEntry : RawEntry → List String
  | .mk _ link _ items =>
    (match link with
      | some (.str s) => [s]
      | _ => []) ++
    (match items with
      | some its => linkStringsList its
      | none => [])

/-- All string `link` values of a raw sibling list. -/
def linkStringsList : List RawEntry → List String
  | [] => []
  | e :: es => linkStringsEntry e ++ linkStringsList es

end

/-- Every string `link` value occurring in the `sidebar` and `topNav` of
`vocs.config.tsx`. -/
def configLinkStrings : List String :=
  linkStringsList sidebar ++ linkStringsList topNav

/-- Modelled from the spec: a well-formed absolute path string begins with
the `/` character. -/
def isAbsolutePath (s : String) : Bool :=
  match s.data with
  | '/' :: _ => true
  | _ => false

mutual

/-- Whether a raw entry, or one of its descendants, carries a non-string
`link` value — the spec's example of a malformed configuration. -/
def hasNonStringLinkEntry : RawEntry → Bool
  | .mk _ link _ items =>
    (match link with
      | some (.num _) => true
      | _ => false) ||
    (match items with
      | some its => hasNonStringLinkList its
      | none => false)

/-- Whether some entry of a raw sibling list carries a non-string `link`. -/
def hasNonStringLinkList : List RawEntry → Bool
  | [] => false
  | e :: es => hasNonStringLinkEntry e || hasNonStringLinkList es

end

mutual

/-- Nesting depth of a resolved node: 1 for the node itself plus the deepest
chain below it (an entry without `items`, or with an empty `items`, has
depth 1). -/
def nodeDepth : NavNode → Nat
  | .mk _ _ _ none => 1
  | .mk _ _ _ (some its) => 1 + listDepth its

/-- Deepest nesting depth over a resolved sibling list (0 when empty). -/
def listDepth : List NavNode → Nat
  | [] => 0
  | n :: ns => max (nodeDepth n) (listDepth ns)

end

/-- The structural part of a flattened triple: path and depth, with the
collapse flag erased. -/
def stripCollapse (p : String × Nat × Bool) : String × Nat :=
  (p.1, p.2.1)

mutual

/-- Rewrite the collapse flag of a node and of all its descendants by `f`,
leaving text, links, order and nesting untouched. -/
def mapCollapseNode (f : Bool → Bool) : NavNode → NavNode
  | .mk t l c items =>
    .mk t l (f c)
      (match items with
        | some its => some (mapCollapseList f its)
        | none => none)

/-- Rewrite the collapse flags of a whole sibling list by `f`. -/
def mapCollapseList (f : Bool → Bool) : List NavNode → List NavNode
  | [] => []
  | n :: ns => mapCollapseNode f n :: mapCollapseList f ns

end

/-- Whether a raw entry has both a `link` and a non-empty `items` list — the
dual-role shape (a section that is itself also a page). -/
def dualRole : RawEntry → Bool
  | .mk _ link _ items =>
    link.isSome &&
    (match items with
      | some (_ :: _) => true
      | _ => false)

mutual

/-- Whether a raw entry, or one of its descendants, is dual-role. -/
def anyDualRoleEntry : RawEntry → Bool
  | .mk t link c items =>
    dualRole (.mk t link c items) ||
    (match items with
      | some its => anyDualRoleList its
      | none => false)

/-- Whether some entry of a raw sibling list is dual-role. -/
def anyDualRoleList : List RawEntry → Bool
  | [] => false
  | e :: es => anyDualRoleEntry e || anyDualRoleList es

end

/-- Whether a raw entry carries an explicitly empty `items: []` field. -/
def hasEmptyItems : RawEntry → Bool
  | .mk _ _ _ (some []) => true
  | _ => false

mutual

/-- Whether a raw entry and every one of its descendants carry an explicit
`items` field (possibly empty). -/
def allItemsFieldEntry : RawEntry → Bool
  | .mk _ _ _ none => false
  | .mk _ _ _ (some its) => allItemsFieldList its

/-- Whether every entry of a raw sibling list, descendants included, carries
an explicit `items` field. -/
def allItemsFieldList : List RawEntry → Bool
  | [] => true
  | e :: es => allItemsFieldEntry e && allItemsFieldList es

end

mutual

/-- A canonical textual rendering of a resolved node, used to state that
repeated resolutions produce byte-identical output. -/
def serializeNode : NavNode → String
  | .mk t l c items =>
    "(" ++ t ++ "|" ++
    (match l with
      | some s => s
      | none => "_") ++ "|" ++
    (if c then "1" else "0") ++ "|" ++
    (match items with
      | some its => serializeList its
      | none => "_") ++ ")"

/-- A canonical textual rendering of a resolved sibling list. -/
def serializeList : List NavNode → String
  | [] => ""
  | n :: ns => serializeNode n ++ serializeList ns

end

/-- A canonical textual rendering of one collected `MissingLinkError`. -/
def serializeError (e : MissingLinkError) : String :=
  "[" ++ e.path ++ "|" ++ e.text ++ "]"

/-- Modelled from the spec: the build result exposed to the surrounding
tooling — the validated tree plus the collected link-validation errors, or
the fatal `ConfigurationError`. -/
def resolve (config : List RawEntry) (docs : List String) :
    Except ConfigurationError (List NavNode × List MissingLinkError) :=
  match buildTree config with
  | .error err => .error err
  | .ok tree => .ok (tree, validateLinks tree docs)

/-- A canonical textual rendering of a whole build result. -/
def serializeResult :
    Except ConfigurationError (List NavNode × List MissingLinkError) → String
  | .error (.nonStringLink t) => "error:" ++ t
  | .ok (tree, errs) =>
    serializeList tree ++ "#" ++ String.join (errs.map serializeError)

mutual

theorem buildEntry_flatten (d : Nat) (e : RawEntry) (n : NavNode)
    (h : buildEntry e = .ok n) : flattenNode d n = rawFlattenEntry d e := by
  match e with
  | .mk t link c items =>
    match link with
    | some (.num k) => simp [buildEntry] at h
    | none =>
      simp [buildEntry] at h
      cases hbo : buildOptItems items with
      | error err => rw [hbo] at h; simp [Except.map] at h
      | ok its =>
        rw [hbo] at h
        simp [Except.map] at h
        subst h
        cases items with
        | none => cases hbo; rfl
        | some es =>
          simp [buildOptItems] at hbo
          cases hes : buildList es with
          | error err => rw [hes] at hbo; simp [Except.map] at hbo
          | ok ns =>
            rw [hes] at hbo; simp [Except.map] at hbo
            subst hbo
            simp [flattenNode, rawFlattenEntry]
            exact buildList_flatten (d + 1) es ns hes
    | some (.str s) =>
      simp [buildEntry] at h
      cases hbo : buildOptItems items with
      | error err => rw [hbo] at h; simp [Except.map] at h
      | ok its =>
        rw [hbo] at h
        simp [Except.map] at h
        subst h
        cases items with
        | none => cases hbo; rfl
        | some es =>
          simp [buildOptItems] at hbo
          cases hes : buildList es with
          | error err => rw [hes] at hbo; simp [Except.map] at hbo
          | ok ns =>
            rw [hes] at hbo; simp [Except.map] at hbo
            subst hbo
            simp [flattenNode, rawFlattenEntry]
            exact buildList_flatten (d + 1) es ns hes

theorem buildList_flatten (d : Nat) (es : List RawEntry) (ns : List NavNode)
    (h : buildList es = .ok ns) : flattenList d ns = rawFlattenItems d es := by
  match es with
  | [] =>
    simp [buildList] at h
    subst h
    rfl
  | e :: es' =>
    simp only [buildList] at h
    cases he : buildEntry e with
    | error err => rw [he] at h; simp at h
    | ok n =>
      rw [he] at h
      cases hes : buildList es' with
      | error err => rw [hes] at h; simp at h
      | ok ns' =>
        rw [hes] at h; simp at h
        subst h
        simp [flattenList, rawFlattenItems]
        rw [buildEntry_flatten d e n he, buildList_flatten d es' ns' hes]

end

/-- Claim C1: for every valid configuration, `flatten (buildTree config)` is
the depth-first linearization that lists the configuration's links in exactly
the declared sibling order and at exactly the declared nesting depth —
`rawFlattenItems 0 config`, the linearization read off the input directly. -/
theorem claim1_flatten_buildTree_declared_order_depth
    (config : List RawEntry) (tree : List NavNode)
    (h : buildTree config = .ok tree) :
    flatten tree = rawFlattenItems 0 config :=
  buildList_flatten 0 config tree h

/-- Claim C1 witness: the theorem applied to the actual sidebar
configuration of `vocs.config.tsx`. -/
theorem claim1_sidebar_instance :
    flatten ((buildTree sidebar).toOption.getD []) = rawFlattenItems 0 sidebar :=
  claim1_flatten_buildTree_declared_order_depth sidebar
    ((buildTree sidebar).toOption.getD []) (by rfl)

mutual

theorem validateNode_eq (docs : List String) (n : NavNode) :
    validateNode docs n = (linkedNode n).filterMap (missingCheck docs) := by
  match n with
  | .mk t link c items =>
    cases items with
    | none =>
      cases link with
      | none => rfl
      | some l =>
        by_cases hl : l ∈ docs <;>
          simp [validateNode, linkedNode, missingCheck, hl]
    | some its =>
      cases link with
      | none =>
        simpa [validateNode, linkedNode] using validateList_eq docs its
      | some l =>
        by_cases hl : l ∈ docs <;>
          simp [validateNode, linkedNode, missingCheck, hl, validateList_eq docs its]

theorem validateList_eq (docs : List String) (ns : List NavNode) :
    validateList docs ns = (linkedList ns).filterMap (missingCheck docs) := by
  match ns with
  | [] => rfl
  | n :: ns' =>
    simp [validateList, linkedList, List.filterMap_append,
      validateNode_eq docs n, validateList_eq docs ns']

end

/-- Claim C2: `validateLinks` returns exactly one `MissingLinkError` — naming
the offending path and the entry's display text — per entry whose `link` is
absent from the document set (it filters the full depth-first list of linked
entries, so it never stops at the first missing link), and it returns the
empty list when every link of the tree is a member of the document set. -/
theorem claim2_validateLinks_exact (tree : List NavNode) (docs : List String) :
    validateLinks tree docs = (linkedList tree).filterMap (missingCheck docs) ∧
    ((∀ p ∈ linkedList tree, p.1 ∈ docs) → validateLinks tree docs = []) := by
  refine ⟨validateList_eq docs tree, fun hall => ?_⟩
  rw [validateLinks, validateList_eq docs tree]
  rw [List.filterMap_eq_nil_iff]
  intro p hp
  simp [missingCheck, hall p hp]

/-- Claim C2 witness: the spec's scenario — a section `A` with one child
leaf `B` linking to `/b`, validated against the document set containing
exactly `/b`, yields zero errors. -/
theorem claim2_instance :
    validateLinks
      [NavNode.mk "A" none false (some [NavNode.mk "B" (some "/b") false none])]
      ["/b"] = [] :=
  (claim2_validateLinks_exact
    [NavNode.mk "A" none false (some [NavNode.mk "B" (some "/b") false none])]
    ["/b"]).2 (by decide)

/-- Claim C3 counterexample: not every `link` of the actual `sidebar` and
`topNav` is a well-formed absolute path string — the entry `🔔 Read the
latest docs ↗` (and the single `topNav` entry) links to the external URL
`https://docs.xmtp.org/`, which does not begin with `/`. -/
theorem claim3_counterexample :
    configLinkStrings.all isAbsolutePath = false ∧
    "https://docs.xmtp.org/" ∈ configLinkStrings ∧
    isAbsolutePath "https://docs.xmtp.org/" = false :=
  ⟨by decide, by decide, by decide⟩

/-- Claim C3 amended: every `link` occurring in the `sidebar` and `topNav` of
`vocs.config.tsx` is either a well-formed absolute path string or the one
external URL `https://docs.xmtp.org/` (carried by the two `Read the latest
docs` entries). -/
theorem claim3_amended_links_absolute_or_external :
    configLinkStrings.all
      (fun l => isAbsolutePath l || l == "https://docs.xmtp.org/") = true := by
  decide

/-- Claim C4: an entry that omits the optional `collapsed` field resolves,
through `buildEntry`, to a node whose effective collapsed state is `false`
(expanded by default). -/
theorem claim4_collapsed_defaults_false (t : String) (link : Option JVal)
    (items : Option (List RawEntry)) (n : NavNode)
    (h : buildEntry (.mk t link none items) = .ok n) :
    n.collapsed = false := by
  cases link with
  | none =>
    simp [buildEntry] at h
    cases hbo : buildOptItems items with
    | error err => rw [hbo] at h; simp [Except.map] at h
    | ok its =>
      rw [hbo] at h
      simp [Except.map] at h
      subst h
      rfl
  | some v =>
    cases v with
    | num k => simp [buildEntry] at h
    | str s =>
      simp [buildEntry] at h
      cases hbo : buildOptItems items with
      | error err => rw [hbo] at h; simp [Except.map] at h
      | ok its =>
        rw [hbo] at h
        simp [Except.map] at h
        subst h
        rfl

/-- Claim C4 witness: the theorem applied to the actual `Embed a chat
widget` sidebar entry, which omits `collapsed`. -/
theorem claim4_embed_chat_widget_instance :
    (NavNode.mk "Embed a chat widget" (some "/chat-widget/chat-widget") false
      (some [])).collapsed = false :=
  claim4_collapsed_defaults_false "Embed a chat widget"
    (some (.str "/chat-widget/chat-widget")) (some [])
    (NavNode.mk "Embed a chat widget" (some "/chat-widget/chat-widget") false
      (some []))
    (by rfl)

/-- Claim C5: resolution is deterministic and repeatable — two calls of
`buildTree` on the same input yield equal trees, and two runs of the whole
resolution against the same configuration and document set yield equal
results with byte-identical serialized output. -/
theorem claim5_resolution_deterministic (cfg₁ cfg₂ : List RawEntry)
    (docs₁ docs₂ : List String) (hc : cfg₁ = cfg₂) (hd : docs₁ = docs₂) :
    buildTree cfg₁ = buildTree cfg₂ ∧
    resolve cfg₁ docs₁ = resolve cfg₂ docs₂ ∧
    serializeResult (resolve cfg₁ docs₁) = serializeResult (resolve cfg₂ docs₂) := by
  subst hc
  subst hd
  exact ⟨rfl, rfl, rfl⟩

/-- Claim C5 witness: the theorem applied to the actual sidebar and the
document set discovered under `src/docs/pages`. -/
theorem claim5_sidebar_instance :
    buildTree sidebar = buildTree sidebar ∧
    resolve sidebar availableDocPaths = resolve sidebar availableDocPaths ∧
    serializeResult (resolve sidebar availableDocPaths) =
      serializeResult (resolve sidebar availableDocPaths) :=
  claim5_resolution_deterministic sidebar sidebar
    availableDocPaths availableDocPaths rfl rfl

/-- Claim C6: the tree built from the actual sidebar configuration is finite
and acyclic by construction (it is an inductive value), its nesting depth is
3 — a root section containing a subsection containing leaf links — hence at
most the designed bound of 4, and every flattened entry lies at nesting
depth at most 4. -/
theorem claim6_sidebar_depth_bounded :
    (buildTree sidebar).map listDepth = .ok 3 ∧
    (buildTree sidebar).map
      (fun tree => (flatten tree).all (fun p => decide (p.2.1 + 1 ≤ 4))) = .ok true ∧
    (3 : Nat) ≤ 4 :=
  ⟨rfl, rfl, by decide⟩

/-- Claim C7 counterexample: no entry of the actual configuration — neither
in `sidebar` nor in `topNav`, descendants included — carries both a `link`
and a non-empty `items` sequence; the claimed dual-role shape does not occur
in the configuration. -/
theorem claim7_counterexample :
    anyDualRoleList sidebar = false ∧ anyDualRoleList topNav = false :=
  ⟨by decide, by decide⟩

/-- Claim C7 amended: the data model does admit dual-role entries —
`buildEntry` accepts an entry carrying both a `link` and non-empty `items`
without error — but in the actual sidebar the only entries carrying both a
`link` and an `items` field (the two entries at indices 0 and 3) have an
explicitly empty `items: []`. -/
theorem claim7_amended_dual_role :
    (buildEntry (.mk "Section page" (some (.str "/section")) none
      (some [.mk "Child" (some (.str "/section/child")) none none]))).isOk = true ∧
    dualRole (.mk "Section page" (some (.str "/section")) none
      (some [.mk "Child" (some (.str "/section/child")) none none])) = true ∧
    sidebar.countP (fun e => (RawEntry.link e).isSome && hasEmptyItems e) = 2 :=
  ⟨by rfl, by rfl, by decide⟩

mutual

theorem mapCollapse_flattenNode (f : Bool → Bool) (d : Nat) (n : NavNode) :
    (flattenNode d (mapCollapseNode f n)).map stripCollapse =
    (flattenNode d n).map stripCollapse := by
  match n with
  | .mk t l c items =>
    cases items with
    | none =>
      cases l with
      | none => rfl
      | some s => rfl
    | some its =>
      cases l with
      | none =>
        simpa [mapCollapseNode, flattenNode] using
          mapCollapse_flattenList f (d + 1) its
      | some s =>
        simp [mapCollapseNode, flattenNode, stripCollapse,
          mapCollapse_flattenList f (d + 1) its]

theorem mapCollapse_flattenList (f : Bool → Bool) (d : Nat) (ns : List NavNode) :
    (flattenList d (mapCollapseList f ns)).map stripCollapse =
    (flattenList d ns).map stripCollapse := by
  match ns with
  | [] => rfl
  | n :: ns' =>
    simp [mapCollapseList, flattenList, mapCollapse_flattenNode f d n,
      mapCollapse_flattenList f d ns']

end

/-- Claim C8: an entry with `collapsed: true` and nested `items` flattens its
children through `flattenList` at depth `d + 1`, exactly as the same entry
with `collapsed: false` would; erasing the collapse flags, the flattened
output of a tree is unchanged under any rewriting of collapse flags — the
flag affects neither structure, nor order, nor depths. -/
theorem claim8_collapse_structure_independent (t : String) (l : Option String)
    (its : List NavNode) (d : Nat) (f : Bool → Bool) (ns : List NavNode) :
    flattenNode d (.mk t l true (some its)) =
      (match l with
        | some s => [(s, d, true)]
        | none => []) ++ flattenList (d + 1) its ∧
    (flattenNode d (.mk t l true (some its))).map stripCollapse =
      (flattenNode d (.mk t l false (some its))).map stripCollapse ∧
    (flattenList d (mapCollapseList f ns)).map stripCollapse =
      (flattenList d ns).map stripCollapse := by
  refine ⟨rfl, ?_, mapCollapse_flattenList f d ns⟩
  cases l with
  | none => rfl
  | some s => simp [flattenNode, stripCollapse]

/-- Claim C8 witness: the theorem applied to a parent with `collapsed: true`
and one child leaf. -/
theorem claim8_instance :
    flattenNode 0 (NavNode.mk "P" (some "/p") true
        (some [NavNode.mk "C" (some "/c") false none])) =
      [("/p", 0, true)] ++ flattenList 1 [NavNode.mk "C" (some "/c") false none] ∧
    (flattenNode 0 (NavNode.mk "P" (some "/p") true
        (some [NavNode.mk "C" (some "/c") false none]))).map stripCollapse =
      (flattenNode 0 (NavNode.mk "P" (some "/p") false
        (some [NavNode.mk "C" (some "/c") false none]))).map stripCollapse ∧
    (flattenList 0 (mapCollapseList id
        [NavNode.mk "C" (some "/c") false none])).map stripCollapse =
      (flattenList 0 [NavNode.mk "C" (some "/c") false none]).map stripCollapse :=
  claim8_collapse_structure_independent "P" (some "/p")
    [NavNode.mk "C" (some "/c") false none] 0 id
    [NavNode.mk "C" (some "/c") false none]

mutual

theorem buildEntry_error_of_nonString (e : RawEntry)
    (h : hasNonStringLinkEntry e = true) :
    ∃ err, buildEntry e = .error err := by
  match e with
  | .mk t link c none =>
    cases link with
    | none => exact absurd h (by simp [hasNonStringLinkEntry])
    | some v =>
      cases v with
      | num k => exact ⟨.nonStringLink t, rfl⟩
      | str s => exact absurd h (by simp [hasNonStringLinkEntry])
  | .mk t link c (some its) =>
    cases link with
    | none =>
      obtain ⟨err, herr⟩ := buildList_error_of_nonString its
        (by simpa [hasNonStringLinkEntry] using h)
      exact ⟨err, by simp [buildEntry, buildOptItems, herr, Except.map]⟩
    | some v =>
      cases v with
      | num k => exact ⟨.nonStringLink t, rfl⟩
      | str s =>
        obtain ⟨err, herr⟩ := buildList_error_of_nonString its
          (by simpa [hasNonStringLinkEntry] using h)
        exact ⟨err, by simp [buildEntry, buildOptItems, herr, Except.map]⟩

theorem buildList_error_of_nonString (es : List RawEntry)
    (h : hasNonStringLinkList es = true) :
    ∃ err, buildList es = .error err := by
  match es with
  | [] => simp [hasNonStringLinkList] at h
  | e :: es' =>
    simp [hasNonStringLinkList] at h
    cases h with
    | inl h1 =>
      obtain ⟨err, herr⟩ := buildEntry_error_of_nonString e h1
      exact ⟨err, by simp [buildList, herr]⟩
    | inr h2 =>
      obtain ⟨err2, herr2⟩ := buildList_error_of_nonString es' h2
      cases he : buildEntry e with
      | error err => exact ⟨err, by simp [buildList, he]⟩
      | ok n => exact ⟨err2, by simp [buildList, he, herr2]⟩

end

/-- Claim C9: error propagation is split by kind — a configuration holding a
non-string `link` anywhere makes `buildTree` abort with a fatal
`ConfigurationError`, so no tree is produced from a structurally invalid
configuration, while `validateLinks` accumulates one error per missing link
over the whole tree in a single pass and never fails fast. -/
theorem claim9_error_propagation_split (config : List RawEntry)
    (tree : List NavNode) (docs : List String)
    (h : hasNonStringLinkList config = true) :
    (∃ err, buildTree config = .error err) ∧
    validateLinks tree docs = (linkedList tree).filterMap (missingCheck docs) :=
  ⟨buildList_error_of_nonString config h, validateList_eq docs tree⟩

/-- Claim C9 witness: a configuration whose single entry carries the
numeric link `42` aborts the build. -/
theorem claim9_instance :
    (∃ err, buildTree [RawEntry.mk "Bad" (some (.num 42)) none none] = .error err) ∧
    validateLinks [] [] = (linkedList []).filterMap (missingCheck []) :=
  claim9_error_propagation_split
    [RawEntry.mk "Bad" (some (.num 42)) none none] [] [] (by decide)

/-- Claim C10 counterexample: not every entry of the actual sidebar carries
an explicit `items` field — the leaf entries nested inside sections omit it,
for instance both children of the `Overview` section (`Intro to XMTP` and
`FAQ`). -/
theorem claim10_counterexample :
    allItemsFieldList sidebar = false ∧
    ((sidebar[2]?.bind RawEntry.items).getD []).all
      (fun e => (RawEntry.items e).isSome) = false :=
  ⟨by decide, by decide⟩

/-- Claim C10 amended: every root-level entry of the actual sidebar carries
an explicit `items` field (possibly empty); the `⎯ LEGACY DOCUMENTATION ⎯`
divider at index 1 has no `link` and an explicitly empty `items` — it is
neither a leaf carrying a link nor a section with children — `buildEntry`
accepts it, it contributes no `(path, depth, collapsed)` triple to the
flattened output, and `validateLinks` never reports it for any document
set. -/
theorem claim10_amended_divider :
    sidebar.all (fun e => (RawEntry.items e).isSome) = true ∧
    sidebar[1]? = some (.mk "⎯ LEGACY DOCUMENTATION ⎯" none none (some [])) ∧
    buildEntry (.mk "⎯ LEGACY DOCUMENTATION ⎯" none none (some [])) =
      .ok (.mk "⎯ LEGACY DOCUMENTATION ⎯" none false (some [])) ∧
    (∀ d : Nat,
      flattenNode d (.mk "⎯ LEGACY DOCUMENTATION ⎯" none false (some [])) = []) ∧
    (∀ docs : List String,
      validateNode docs (.mk "⎯ LEGACY DOCUMENTATION ⎯" none false (some [])) = []) := by
  refine ⟨by decide, rfl, rfl, fun d => ?_, fun docs => ?_⟩
  · simp [flattenNode, flattenList]
  · simp [validateNode, validateList]

end Nav
